import Mathlib

/-!
Verification development for the siril-scripts pipeline drivers
(GPS_Preprocess.py, GPS_Process.py, GPS_Postprocess.py).

The Python sources are shallowly embedded: each stage function becomes a
pure Lean function from an explicit filesystem / argument state to the
list of host commands it issues or to a trace of effects it performs.
Filesystems are lists of path strings (paths are taken relative to the
working directory), the process-wide mutable globals of the scripts
become explicit parameters, and `sys.exit` / uncaught exceptions become
`Option` exit codes or truncated call lists.
-/

set_option maxRecDepth 4000

/-- Paths are plain strings, relative to the working directory. -/
abbrev FsPath := String

/-- Embeds Python `s.startswith(pre)` (structurally recursive so that
concrete instances evaluate). -/
def strStartsWith (s pre : String) : Bool :=
  pre.data.isPrefixOf s.data

/-- Embeds Python `s.endswith(suf)`. -/
def strEndsWith (s suf : String) : Bool :=
  suf.data.isSuffixOf s.data

/-- Embeds Python `s.split(c)` on the character level: splits a character
list at every occurrence of `c`, keeping empty components. -/
def splitOnChar (c : Char) : List Char → List (List Char)
  | [] => [[]]
  | x :: xs =>
    let r := splitOnChar c xs
    if x = c then [] :: r
    else
      match r with
      | [] => [[x]]
      | h :: t => (x :: h) :: t

/-- Accumulator of `digitsToNat?`. -/
def digitsToNatAux : List Char → Nat → Option Nat
  | [], acc => some acc
  | c :: r, acc =>
    if c.isDigit then digitsToNatAux r (acc * 10 + (c.toNat - 48)) else none

/-- Embeds Python `int(s)` on a nonnegative decimal string: `none` when the
string is empty or holds a non-digit (where `int` raises `ValueError`). -/
def digitsToNat? (l : List Char) : Option Nat :=
  if l.isEmpty then none else digitsToNatAux l 0

/-- Recognized image extensions in GPS_Process
(`image.endswith(('.fits', '.fit', '.fts', '.fz'))`). -/
def fitExt (image : String) : Bool :=
  strEndsWith image (".fits") || strEndsWith image (".fit") ||
  strEndsWith image (".fts") || strEndsWith image (".fz")

/-- Embeds Python `s.rsplit('.', 1)[0]`: everything before the last dot,
or the whole string when it has no dot. -/
def rsplitBase (s : String) : String :=
  let r := s.data.reverse.dropWhile (fun c => c ≠ '.')
  if r.isEmpty then s else String.mk (r.drop 1).reverse

/-! ## GPS_Preprocess.py -/

/-- Marker test of `master_bias` (GPS_Preprocess.py line 49):
`os.path.exists(workdir/process/bias_stacked.fit)` or the `.fz` variant. -/
def biasMarker (fs : List FsPath) : Bool :=
  fs.contains ("process/bias_stacked.fit") || fs.contains ("process/bias_stacked.fit.fz")

/-- Embeds `master_bias` (GPS_Preprocess.py lines 48-56): the list of siril
commands issued, `[]` when the marker exists and the stage is skipped. -/
def master_bias (fs : List FsPath) (bias_dir process_dir : String) : List String :=
  if biasMarker fs then []
  else
    [("cd ") ++ bias_dir,
     ("convert bias -out=") ++ process_dir,
     ("cd  ") ++ process_dir,
     ("stack bias rej 3 3 -nonorm")]

/-- Marker test of `master_flat` (GPS_Preprocess.py line 59). -/
def flatMarker (fs : List FsPath) : Bool :=
  fs.contains ("process/pp_flat_stacked.fit") || fs.contains ("process/pp_flat_stacked.fit.fz")

/-- Embeds `master_flat` (GPS_Preprocess.py lines 58-67). -/
def master_flat (fs : List FsPath) (flat_dir process_dir : String) : List String :=
  if flatMarker fs then []
  else
    [("cd ") ++ flat_dir,
     ("convert flat -out=") ++ process_dir,
     ("cd ") ++ process_dir,
     ("calibrate flat -bias=bias_stacked"),
     ("stack pp_flat rej 3 3 -norm=mul")]

/-- Marker test of `master_dark` (GPS_Preprocess.py line 70). -/
def darkMarker (fs : List FsPath) : Bool :=
  fs.contains ("process/dark_stacked.fit") || fs.contains ("process/dark_stacked.fit.fz")

/-- Embeds `master_dark` (GPS_Preprocess.py lines 69-77). -/
def master_dark (fs : List FsPath) (dark_dir process_dir : String) : List String :=
  if darkMarker fs then []
  else
    [("cd ") ++ dark_dir,
     ("convert dark -out=") ++ process_dir,
     ("cd ") ++ process_dir,
     ("stack dark rej 3 3 -nonorm")]

/-- Marker test of `light` and `light_nc` (GPS_Preprocess.py lines 80, 91). -/
def lightMarker (fs : List FsPath) : Bool :=
  fs.contains ("process/pp_light_.seq")

/-- Embeds `light` (GPS_Preprocess.py lines 79-88). -/
def light (fs : List FsPath) (light_dir process_dir : String) : List String :=
  if lightMarker fs then []
  else
    [("cd ") ++ light_dir,
     ("convert light -out=") ++ process_dir,
     ("cd ") ++ process_dir,
     ("calibrate light -dark=dark_stacked -flat=pp_flat_stacked -cc=dark -cfa -equalize_cfa")]

/-- Marker test of `bkg_extract` (GPS_Preprocess.py line 99). -/
def bkgExtractMarker (fs : List FsPath) : Bool :=
  fs.contains ("process/bkg_pp_light_.seq")

/-- Embeds `bkg_extract` (GPS_Preprocess.py lines 98-104). -/
def bkg_extract (fs : List FsPath) (process_dir : String) : List String :=
  if bkgExtractMarker fs then []
  else
    [("cd ") ++ process_dir,
     ("seqsubsky pp_light 1 -samples=10")]

/-- Value of the `-ps` argument: bare flag (`const=True`) or a focal length. -/
inductive PsArg where
  | flagOnly : PsArg
  | focal (v : String) : PsArg
deriving DecidableEq

/-- Marker test of `platesolve` (GPS_Preprocess.py lines 107-114), which
depends on whether background extraction was requested. -/
def platesolveMarker (fs : List FsPath) (bkgFlag : Bool) : Bool :=
  if bkgFlag then fs.contains ("process/r_bkg_pp_light_.seq")
  else fs.contains ("process/r_pp_light_.seq")

/-- Embeds `platesolve` (GPS_Preprocess.py lines 106-120). -/
def platesolve (fs : List FsPath) (bkgFlag : Bool) (ps : PsArg)
    (process_dir light_seq : String) : List String :=
  if platesolveMarker fs bkgFlag then []
  else
    let focal := match ps with
      | PsArg.flagOnly => (" ")
      | PsArg.focal v => ("-focal=") ++ v
    [("cd ") ++ process_dir,
     ("seqplatesolve ") ++ light_seq ++ (" -nocache -catalog=nomad -force -disto=ps_distortion ") ++ focal]

/-- Embeds `register` (GPS_Preprocess.py lines 122-131).  The source performs
no existence check whatsoever: the filesystem argument is accepted (the
embedding hands every stage the filesystem) but never consulted, exactly as
the Python function never calls `os.path.exists`. -/
def register (fs : List FsPath) (platesolveFlag no_calibration : Bool)
    (process_dir light_seq bkgF stars roundf wfwhm drizzle : String) : List String :=
  let _ := fs
  let flat := if no_calibration then (" ") else (" -flat=pp_flat_stacked")
  if platesolveFlag then
    [("cd ") ++ process_dir,
     ("seqapplyreg ") ++ light_seq ++ (" -framing=max -filter-bkg=") ++ bkgF ++
       (" -filter-nbstars=") ++ stars ++ (" -filter-round=") ++ roundf ++
       (" -filter-wfwhm=") ++ wfwhm ++ (" ") ++ drizzle ++ (" ") ++ flat]
  else
    [("cd ") ++ process_dir,
     ("register ") ++ light_seq ++ (" -2pass"),
     ("seqapplyreg ") ++ light_seq ++ (" -filter-bkg=") ++ bkgF ++
       (" -filter-nbstars=") ++ stars ++ (" -filter-round=") ++ roundf ++
       (" -filter-wfwhm=") ++ wfwhm ++ (" ") ++ drizzle ++ (" ") ++ flat]

/-- Embeds `stack` (GPS_Preprocess.py lines 133-141).  Like `register`, the
source checks no completion marker; it always issues its commands. -/
def stack (fs : List FsPath) (process_dir light_seq obj bkgF stars roundf wfwhm
    drizzle_scale feather : String) : List String :=
  let _ := fs
  [("cd ") ++ process_dir,
   ("load pp_light_00001"),
   ("stack r_") ++ light_seq ++ (" rej 3 3 -norm=addscale -output_norm -rgb_equal -maximize -filter-included -weight=wfwhm  -feather=") ++ feather ++ (" -out=../") ++ obj ++ ("_b") ++ bkgF ++ ("-s") ++ stars ++ ("-r") ++ roundf ++ ("-w") ++ wfwhm ++ ("-z") ++ drizzle_scale ++ ("-f") ++ feather ++ ("-$LIVETIME:%d$s"),
   ("close")]

/-! ### Multi-session pp_light renumbering (GPS_Preprocess.py lines 383-397) -/

/-- File filter of the renumbering loops:
`pp.startswith('pp_light_') and pp.endswith('.fit')`. -/
def isPPLight (pp : String) : Bool :=
  strStartsWith pp ("pp_light_") && strEndsWith pp (".fit")

/-- Embeds `int(pp.split('_')[-1].split('.')[0])`: the numeric index of a
per-frame calibrated light artifact. -/
def ppIndex (pp : String) : Option Nat :=
  digitsToNat? (((splitOnChar '.' ((splitOnChar '_' pp.data).getLastD [])).headD []))

/-- Embeds the scan loop of GPS_Preprocess.py lines 385-387: iterate over the
first session's process directory listing (in the order `os.listdir` returns
it) and assign `next = int(...)` for every matching file.  The result is the
index of the LAST matching file in listing order, since each iteration
overwrites the previous assignment. -/
def scanLastIdx (listing : List String) : Option Nat :=
  listing.foldl (fun acc pp => if isPPLight pp then ppIndex pp else acc) none

/-- Embeds Python `f"{n:05}"`: decimal rendering zero-padded to width 5. -/
def pad5 (n : Nat) : String :=
  let s := toString n
  String.mk (List.replicate (5 - s.length) '0') ++ s

/-- Embeds the rename loop of GPS_Preprocess.py lines 390-396: every matching
file of the later session's process directory is renamed to
`pp_light_{next:05}.fit` in the first session's process directory, with
`next` incremented after each rename.  Returns the (source, target) pairs. -/
def mergeRenames : List String → Nat → List (String × String)
  | [], _ => []
  | pp :: rest, k =>
    if isPPLight pp then
      (pp, ("pp_light_") ++ pad5 k ++ (".fit")) :: mergeRenames rest (k + 1)
    else
      mergeRenames rest k

/-- Combination of scan and increment (lines 385-388): the starting index the
code uses for merged renames is one more than the last-listed match. -/
def mergeStart (listing0 : List String) : Option Nat :=
  (scanLastIdx listing0).map (fun n => n + 1)

/-! ## GPS_Process.py: argument dispatch (main_logic, lines 738-885) -/

/-- Stage functions a single GPS_Process / GPS_Postprocess invocation can
call, in the granularity of the `if args.X:` dispatch. -/
inductive StageCall where
  | abeC | bkgC | bkgGraXC | spccC
  | sharpenC | sharpenCCC | sharpenGraXC | sharpenSAC
  | denoiseC | denoiseCCC | denoiseSAC | denoiseGraXC
  | autostretchC | statstretchC | multiprocessC
deriving DecidableEq

/-- Stage calls whose body issues the Sharpen stage's external calls. -/
def isSharpenCall : StageCall → Bool
  | StageCall.sharpenC | StageCall.sharpenCCC
  | StageCall.sharpenGraXC | StageCall.sharpenSAC => true
  | _ => false

/-- Stage calls whose body issues the Denoise stage's external calls. -/
def isDenoiseCall : StageCall → Bool
  | StageCall.denoiseC | StageCall.denoiseCCC
  | StageCall.denoiseSAC | StageCall.denoiseGraXC => true
  | _ => false

/-- Values the dispatch assigns to the sharpen_CC globals
(`sharpenCC_mode`, `sharpenCC_stellar_amount`, `sharpenCC_non_stellar_amount`,
`sharpenCC_non_stellar_strength`). -/
structure SharpenCCVals where
  mode : String
  stellar_amount : String
  non_stellar_amount : String
  non_stellar_strength : String
deriving DecidableEq, BEq

/-- Embeds the `args.sharpenCC` per-tuple assignment (GPS_Process.py lines
810-827).  `none` models an aborted invocation: either `sys.exit(1)` on an
unrecognized mode, or the `IndexError` raised when the tuple is shorter than
the chosen mode requires (caught by the surrounding try, ending the run). -/
def sharpenCCAssign : List String → Option SharpenCCVals
  | [] => none
  | mode :: rest =>
    if mode = ("Both") then
      match rest with
      | sa :: nsa :: nss :: _ => some ⟨mode, sa, nsa, nss⟩
      | _ => none
    else if mode = ("Non-Stellar Only") then
      match rest with
      | nsa :: nss :: _ => some ⟨mode, ("0"), nsa, nss⟩
      | _ => none
    else if mode = ("Stellar Only") then
      match rest with
      | sa :: _ => some ⟨mode, sa, ("0"), ("0")⟩
      | _ => none
    else none

/-- Embeds the command line built for the CosmicClarity sharpen executable
(GPS_Process.py line 280). -/
def sharpenCCCmdString (executable_path : String) (v : SharpenCCVals) : String :=
  executable_path ++ (" --sharpening_mode \x27") ++ v.mode ++
  ("\x27 --nonstellar_strength ") ++ v.non_stellar_strength ++
  (" --stellar_amount ") ++ v.stellar_amount ++
  (" --nonstellar_amount  ") ++ v.non_stellar_amount ++
  (" --auto_detect_psf")

/-- Values the dispatch assigns for the sharpen_SA stage (GPS_Process.py
lines 836-851), analogous to `sharpenCCAssign`. -/
def sharpenSAAssign : List String → Option (String × String × String)
  | [] => none
  | mode :: rest =>
    if mode = ("Both") then
      match rest with
      | sa :: nsa :: _ => some (mode, sa, nsa)
      | _ => none
    else if mode = ("Non-Stellar Only") then
      match rest with
      | nsa :: _ => some (mode, ("0"), nsa)
      | _ => none
    else if mode = ("Stellar Only") then
      match rest with
      | sa :: _ => some (mode, sa, ("0"))
      | _ => none
    else none

/-- Parsed GPS_Process arguments.  Repeatable flags (`action='append'`)
accumulate a list of tuples; `store_true` flags are booleans; `-cc` is a
single optional tuple.  argparse binds flags by name, so the record already
abstracts the order in which the caller supplied them. -/
structure ProcArgs where
  abe : List (List String)
  autostretch : Bool
  bkg : List (List String)
  bkgGraX : List (List String)
  spcc : Option (List String)
  denoiseCC : List (List String)
  denoiseGraX : List (List String)
  denoiseSA : List (List String)
  denoise : Bool
  multiprocess : Bool
  sharpen : Bool
  sharpenCC : List (List String)
  sharpenGraX : List (List String)
  sharpenSA : List (List String)
  statstretch : List (List String)

/-- A dispatch segment: the stage calls it makes, paired with `true` when
control reaches the next segment (no `sys.exit` / uncaught exception). -/
def Seg := List StageCall × Bool

/-- Sequencing of dispatch segments: the second runs only when the first
completed. -/
def andThen (s t : Seg) : Seg :=
  if s.2 then (s.1 ++ t.1, t.2) else s

/-- Runs one repeatable-flag loop (`for n in args.X:`): each tuple `n` that
satisfies the stage's index/mode requirements produces one stage call;
a failing tuple stops the whole run before calling the stage. -/
def runTuples (ok : List String → Bool) (c : StageCall) : List (List String) → Seg
  | [] => ([], true)
  | n :: rest =>
    if ok n then
      let t := runTuples ok c rest
      (c :: t.1, t.2)
    else ([], false)

/-- Tuple requirement of the `args.abe` loop: `n[0]`, `n[1]`, `n[2]` read. -/
def abeOk (n : List String) : Bool := n.length ≥ 3
/-- Tuple requirement of `args.bkg` / `args.bkgGraX` / `args.denoiseGraX`
loops: only `n[0]`, guaranteed nonempty by argparse `nargs='+'`. -/
def headOk (n : List String) : Bool := n.length ≥ 1
/-- Tuple requirement of the `args.denoiseCC` loop: `n[0]`, `n[1]`. -/
def denoiseCCOk (n : List String) : Bool := n.length ≥ 2
/-- Tuple requirement of the `args.denoiseSA` / `args.statstretch` loops. -/
def tripleOk (n : List String) : Bool := n.length ≥ 3
/-- Tuple requirement of the `args.sharpenGraX` loop: `n[0]`, `n[1]`. -/
def sharpenGraXOk (n : List String) : Bool := n.length ≥ 2
/-- Tuple acceptance of the `args.sharpenCC` loop (mode and arity). -/
def sharpenCCOk (n : List String) : Bool := (sharpenCCAssign n).isSome
/-- Tuple acceptance of the `args.sharpenSA` loop (mode and arity). -/
def sharpenSAOk (n : List String) : Bool := (sharpenSAAssign n).isSome

/-- Embeds the `args.spcc` block (GPS_Process.py lines 792-805):
`sys.exit(1)` unless the tuple has exactly 2 (OSC) or 4 (mono) values. -/
def spccSeg : Option (List String) → Seg
  | none => ([], true)
  | some l =>
    if l.length = 2 || l.length = 4 then ([StageCall.spccC], true)
    else ([], false)

/-- Embeds a `store_true` stage check (`if args.X: X(workdir)`). -/
def boolSeg (flag : Bool) (c : StageCall) : Seg :=
  (if flag then [c] else [], true)

/-- Segments of `main_logic` up to and including the sharpen stages, in
source order (GPS_Process.py lines 775-851). -/
def frontSeg (a : ProcArgs) : Seg :=
  andThen (runTuples abeOk StageCall.abeC a.abe)
    (andThen (runTuples headOk StageCall.bkgC a.bkg)
      (andThen (runTuples headOk StageCall.bkgGraXC a.bkgGraX)
        (andThen (spccSeg a.spcc)
          (andThen (boolSeg a.sharpen StageCall.sharpenC)
            (andThen (runTuples sharpenCCOk StageCall.sharpenCCC a.sharpenCC)
              (andThen (runTuples sharpenGraXOk StageCall.sharpenGraXC a.sharpenGraX)
                (runTuples sharpenSAOk StageCall.sharpenSAC a.sharpenSA)))))))

/-- Segments of `main_logic` from the denoise stages to the end, in source
order (GPS_Process.py lines 853-885). -/
def backSeg (a : ProcArgs) : Seg :=
  andThen (boolSeg a.denoise StageCall.denoiseC)
    (andThen (runTuples denoiseCCOk StageCall.denoiseCCC a.denoiseCC)
      (andThen (runTuples tripleOk StageCall.denoiseSAC a.denoiseSA)
        (andThen (runTuples headOk StageCall.denoiseGraXC a.denoiseGraX)
          (andThen (boolSeg a.autostretch StageCall.autostretchC)
            (andThen (runTuples tripleOk StageCall.statstretchC a.statstretch)
              (boolSeg a.multiprocess StageCall.multiprocessC))))))

/-- Stage calls of one GPS_Process invocation, in the order `main_logic`
makes them (GPS_Process.py lines 775-885). -/
def mainCalls (a : ProcArgs) : List StageCall :=
  (andThen (frontSeg a) (backSeg a)).1

/-- Holds when no Denoise-stage call occurs in the list. -/
def noDenoise : List StageCall → Bool
  | [] => true
  | c :: r => !isDenoiseCall c && noDenoise r

/-- Holds when no Sharpen-stage call occurs in the list. -/
def noSharpen : List StageCall → Bool
  | [] => true
  | c :: r => !isSharpenCall c && noSharpen r

/-- Holds when every Sharpen-stage call precedes every Denoise-stage call:
after any Denoise call no Sharpen call may follow. -/
def sharpenBeforeDenoise : List StageCall → Bool
  | [] => true
  | c :: r => if isDenoiseCall c then noSharpen r else sharpenBeforeDenoise r

/-! ## GPS_Process.py: derived output filenames -/

/-- Embeds the output name of `bkg` (GPS_Process.py line 83):
`f"{image.rsplit('.', 1)[0]}_b{smooth}"`. -/
def bkgNewImage (image smooth : String) : String :=
  rsplitBase image ++ ("_b") ++ smooth

/-- Embeds the output name of `sharpen_CC` (GPS_Process.py line 306):
base name, then `_sc`, then mode, non-stellar strength, stellar amount and
non-stellar amount joined by dashes, then `.fit`. -/
def scNewImage (image : String) (v : SharpenCCVals) : String :=
  rsplitBase image ++ ("_sc") ++ v.mode ++ ("-") ++ v.non_stellar_strength ++
  ("-") ++ v.stellar_amount ++ ("-") ++ v.non_stellar_amount ++ (".fit")

/-- Embeds the output name of `denoise_CC` (GPS_Process.py line 167):
`f"{image.rsplit('.', 1)[0]}_dc{denoiseCC_mode}{denoiseCC_strength}.fit"`. -/
def dcNewImage (image mode strength : String) : String :=
  rsplitBase image ++ ("_dc") ++ mode ++ strength ++ (".fit")

/-! ## GPS_Process.py: CosmicClarity subprocess stages (denoise_CC, sharpen_CC) -/

/-- Mutable state touched by a CosmicClarity stage: the external tool's input
and output directory listings, the working directory listing, the
`processed_images` global and the count of subprocess launches so far. -/
structure CCState where
  ccInput : List String
  ccOutput : List String
  work : List String
  processed : List String
  launches : Nat
deriving DecidableEq

/-- Observable effects of a CosmicClarity stage, in order.  `launchE` records
the input- and output-directory listings at the moment the subprocess is
spawned. -/
inductive CCEvent where
  | printE (msg : String)
  | copyE (src dstDir : String)
  | removeE (name : String)
  | launchE (inputFiles outputFiles : List String)
  | moveE (src dst : String)
deriving DecidableEq

/-- Classifies the effects the ConfigurationMissing contract forbids before
exiting: copying, moving or deleting a file, or launching a subprocess. -/
def isFileOrLaunch : CCEvent → Bool
  | CCEvent.printE _ => false
  | _ => true

/-- Eligibility test of the per-image loops (GPS_Process.py lines 127-128,
266-267): recognized extension and not already in `processed_images`. -/
def ccEligible (processed : List String) (image : String) : Bool :=
  fitExt image && !processed.contains image

/-- Embeds `os.path.splitext(image)[0]` as used on `.fz` names. -/
def fzStem (image : String) : String := rsplitBase image

/-- The name under which an eligible image is handed to the tool: `.fz`
files are first saved uncompressed (`image = os.path.splitext(image)[0]`,
GPS_Process.py line 136), others keep their name. -/
def ccImg2 (image : String) : String :=
  if strEndsWith image (".fz") then fzStem image else image

/-- Effects of processing one eligible image in the per-image loop of
`denoise_CC` / `sharpen_CC` (GPS_Process.py lines 129-170 resp. 268-309):
remove the original `.fz` file if any, copy the image into the tool's input
directory, launch the subprocess (its input/output listings recorded), drain
the input directory, then move every output-directory file into the working
directory under the stage's derived name `newName`. -/
def ccStepEvents (toolOut : Nat → List String) (newName : String → String)
    (st : CCState) (image : String) : List CCEvent :=
  (if strEndsWith image (".fz") then [CCEvent.removeE (fzStem image ++ (".fz"))] else []) ++
  [CCEvent.copyE (ccImg2 image) ("input")] ++
  [CCEvent.launchE (st.ccInput ++ [ccImg2 image]) st.ccOutput] ++
  (st.ccInput ++ [ccImg2 image]).map CCEvent.removeE ++
  (st.ccOutput ++ toolOut st.launches).map
    (fun cc => CCEvent.moveE cc (newName (ccImg2 image)))

/-- State after processing one eligible image: input directory drained
(lines 162-164), output directory fully moved out (lines 165-170), working
directory extended with the moved names and `processed_images` appended once
per moved file. -/
def ccStepState (toolOut : Nat → List String) (newName : String → String)
    (st : CCState) (image : String) : CCState :=
  { ccInput := []
    ccOutput := []
    work := st.work ++
      (st.ccOutput ++ toolOut st.launches).map (fun _ => newName (ccImg2 image))
    processed := st.processed ++
      (st.ccOutput ++ toolOut st.launches).map (fun _ => ccImg2 image)
    launches := st.launches + 1 }

/-- Embeds the per-image loop shared by `denoise_CC` (GPS_Process.py lines
127-170) and `sharpen_CC` (lines 266-309): entries failing the eligibility
test are skipped, eligible ones are processed by `ccStepEvents` /
`ccStepState`. -/
def ccLoop (toolOut : Nat → List String) (newName : String → String) :
    List String → CCState → List CCEvent × CCState
  | [], st => ([], st)
  | image :: rest, st =>
    if ccEligible st.processed image then
      let t := ccLoop toolOut newName rest (ccStepState toolOut newName st image)
      (ccStepEvents toolOut newName st image ++ t.1, t.2)
    else ccLoop toolOut newName rest st

/-- Result of one CosmicClarity stage invocation. -/
structure CCResult where
  events : List CCEvent
  exitCode : Option Nat
  final : CCState
deriving DecidableEq

/-- Message printed when the per-tool config file is absent (GPS_Process.py
lines 119, 258). -/
def ccNotConfiguredMsg : String :=
  "Executable not yet configured. It is recommended to use Seti Astro Cosmic Clarity v5.4 or higher."

/-- Embeds `denoise_CC` (GPS_Process.py lines 109-170).  `configPresent`
models `os.path.isfile(config_dir/sirilcc_denoise.conf)`; when false the
stage prints the remediation message and exits with status 1.  Otherwise the
tool's input directory is drained and the per-image loop runs over the
working-directory listing. -/
def denoise_CC_run (configPresent : Bool) (st : CCState) (toolOut : Nat → List String)
    (mode strength : String) : CCResult :=
  if configPresent then
    let drain0 := st.ccInput.map CCEvent.removeE
    let st0 : CCState := { st with ccInput := [] }
    let r := ccLoop toolOut (fun img => dcNewImage img mode strength) st0.work st0
    ⟨drain0 ++ r.1, none, r.2⟩
  else
    ⟨[CCEvent.printE ccNotConfiguredMsg], some 1, st⟩

/-- Embeds `sharpen_CC` (GPS_Process.py lines 248-309), structurally the same
as `denoise_CC` with the sharpen command line and output naming.  (The
`print(cmd)` on line 281 writes the command to stdout; it is neither a file
operation nor a subprocess launch and is not traced.) -/
def sharpen_CC_run (configPresent : Bool) (st : CCState) (toolOut : Nat → List String)
    (v : SharpenCCVals) : CCResult :=
  if configPresent then
    let drain0 := st.ccInput.map CCEvent.removeE
    let st0 : CCState := { st with ccInput := [] }
    let r := ccLoop toolOut (fun img => scNewImage img v) st0.work st0
    ⟨drain0 ++ r.1, none, r.2⟩
  else
    ⟨[CCEvent.printE ccNotConfiguredMsg], some 1, st⟩

/-! ## GPS_Process.py: siril-command stage loops and processed_images (C9) -/

/-- Embeds the shape shared by the siril-command stages (`bkg`, `abe`,
`denoise`, `autostretch`, ...; e.g. GPS_Process.py lines 76-85): iterate the
working-directory listing; every entry with a recognized extension that is
not in `processed_images` is loaded, transformed and saved under
`newName entry`, and the consumed entry is appended to `processed_images`.
Returns (saved output names, consumed inputs, final processed_images). -/
def stageRun (newName : String → String) :
    List String → List String → List String × List String × List String
  | [], processed => ([], [], processed)
  | image :: rest, processed =>
    if fitExt image && !processed.contains image then
      let t := stageRun newName rest (processed ++ [image])
      (newName image :: t.1, image :: t.2.1, t.2.2)
    else stageRun newName rest processed

/-- The inputs a stage loop consumes (second component of `stageRun`). -/
def stageConsumed (newName : String → String) (listing processed : List String) :
    List String :=
  (stageRun newName listing processed).2.1

/-- The `processed_images` list after a stage loop (third component). -/
def stageFinalProcessed (newName : String → String) (listing processed : List String) :
    List String :=
  (stageRun newName listing processed).2.2

/-- Output name of the siril `denoise` stage (GPS_Process.py line 105):
`f"{os.path.splitext(image)[0]}_d"`. -/
def denoiseNewImage (image : String) : String :=
  rsplitBase image ++ ("_d")

/-! ## GPS_Process.py: multiprocess (lines 220-233) -/

/-- A directory entry of the working directory: a name that is or is not a
directory. -/
structure Entry where
  name : String
  isDir : Bool
deriving DecidableEq

/-- Directory name tried at index `i`: `f"{base_directory}{index}"` with
`base_directory = 'processed_'`. -/
def processedName (i : Nat) : String := ("processed_") ++ toString i

/-- Embeds the `while True: if os.path.isdir(path): index += 1 else: break`
scan of `multiprocess` (GPS_Process.py lines 223-230), starting at `i` with
explicit fuel.  The loop stops at the first index whose directory name is
not an existing directory; the fuel `dirs.length + 1` used below cannot be
exhausted before that happens unless the listing repeats names faster than
the scan consumes them. -/
def chooseIndexFrom : Nat → Nat → List String → Nat
  | 0, i, _ => i
  | fuel + 1, i, dirs =>
    if dirs.contains (processedName i) then chooseIndexFrom fuel (i + 1) dirs
    else i

/-- The index `multiprocess` selects: the scan of lines 223-230 started at 1
over the names of the existing directories. -/
def chooseIndex (dirs : List String) : Nat :=
  chooseIndexFrom (dirs.length + 1) 1 dirs

/-- Embeds `multiprocess` (GPS_Process.py lines 220-233) against a
working-directory listing `entries` and the `original_images` list recorded
at script start (lines 770-773): pick the first index whose `processed_N`
name is not an existing directory, `os.makedirs` it (raising
`FileExistsError` when a non-directory entry of that name exists), then move
every image file not recorded in `original_images` into the new directory.
Returns `(index, moved names, names remaining in the working directory)`. -/
def workDirs (entries : List Entry) : List String :=
  (entries.filter (fun e => e.isDir)).map (fun e => e.name)

/-- The names of all entries of the working directory (what `os.listdir`
and `os.makedirs` existence semantics see). -/
def workNames (entries : List Entry) : List String :=
  entries.map (fun e => e.name)

/-- Directory name `multiprocess` settles on for this invocation. -/
def mpDirName (entries : List Entry) : String :=
  processedName (chooseIndex (workDirs entries))

/-- Working-directory listing at the move loop (GPS_Process.py line 231),
taken after `os.makedirs` added the new `processed_N` directory. -/
def mpListing (entries : List Entry) : List String :=
  workNames entries ++ [mpDirName entries]

/-- Files the move loop of lines 231-233 relocates: recognized image files
not recorded in `original_images`. -/
def mpMoved (entries : List Entry) (original_images : List String) : List String :=
  (mpListing entries).filter (fun i => fitExt i && !original_images.contains i)

/-- Names the move loop leaves in the working directory. -/
def mpRemaining (entries : List Entry) (original_images : List String) : List String :=
  (mpListing entries).filter (fun i => !(fitExt i && !original_images.contains i))

/-- Embeds `multiprocess` (GPS_Process.py lines 220-233) against a
working-directory listing `entries` and the `original_images` list recorded
at script start (lines 770-773): pick the first index whose `processed_N`
name is not an existing directory, `os.makedirs` it (raising
`FileExistsError` when a non-directory entry of that name exists), then move
every image file not recorded in `original_images` into the new directory.
Returns `(index, moved names, names remaining in the working directory)`. -/
def multiprocessRun (entries : List Entry) (original_images : List String) :
    Except String (Nat × List String × List String) :=
  if (workNames entries).contains (mpDirName entries) then
    Except.error ("FileExistsError")
  else
    Except.ok (chooseIndex (workDirs entries), mpMoved entries original_images,
      mpRemaining entries original_images)

/-! ## GPS_Postprocess.py: module-level dispatch (lines 192-230) -/

/-- Parsed GPS_Postprocess arguments (all flags are single, non-repeatable;
presence is what the dispatch tests). -/
structure PostArgs where
  bkg : Bool
  bkgGraX : Bool
  sharpen : Bool
  denoiseCC : Bool
  sharpenCC : Bool
  denoiseGraX : Bool
  sharpenGraX : Bool

/-- Abort cause of the GPS_Postprocess module-level code. -/
inductive PostErr where
  | nameError : PostErr
deriving DecidableEq

/-- Steps through the flag checks of GPS_Postprocess.py lines 203-230 in
source order.  `wd?` is the `workdir` global: `none` when the `try` block
died before line 196 assigned it (connect or requires failed), in which case
the first stage invocation's argument evaluation raises `NameError` and the
uncaught exception ends the process before any stage function runs. -/
def postDispatchGo (wd? : Option String) :
    List (Bool × StageCall) → List StageCall × Option PostErr
  | [] => ([], none)
  | (flag, c) :: rest =>
    if flag then
      match wd? with
      | none => ([], some PostErr.nameError)
      | some _ =>
        let t := postDispatchGo wd? rest
        (c :: t.1, t.2)
    else postDispatchGo wd? rest

/-- Flag-to-stage list of the GPS_Postprocess dispatch, in the order of the
source (lines 203-230): bkg, bkgGraX, sharpen, denoiseCC, sharpenCC,
denoiseGraX, sharpenGraX. -/
def postFlagList (p : PostArgs) : List (Bool × StageCall) :=
  [(p.bkg, StageCall.bkgC), (p.bkgGraX, StageCall.bkgGraXC),
   (p.sharpen, StageCall.sharpenC), (p.denoiseCC, StageCall.denoiseCCC),
   (p.sharpenCC, StageCall.sharpenCCC), (p.denoiseGraX, StageCall.denoiseGraXC),
   (p.sharpenGraX, StageCall.sharpenGraXC)]

/-- Outcome of one GPS_Postprocess invocation. -/
structure PostRun where
  calls : List StageCall
  errPrinted : Bool
  err : Option PostErr
deriving DecidableEq

/-- Embeds the GPS_Postprocess module-level flow (lines 192-230): the `try`
block connects and assigns `workdir`; on failure the `except` prints the
error banner and execution FALLS THROUGH to the stage dispatch with
`workdir` unassigned. -/
def postMainRun (hostOk : Bool) (p : PostArgs) : PostRun :=
  let wd? : Option String := if hostOk then some ("wd") else none
  let d := postDispatchGo wd? (postFlagList p)
  ⟨d.1, !hostOk, d.2⟩

/-- Stage calls of one GPS_Postprocess invocation with a healthy host
connection. -/
def postCalls (p : PostArgs) : List StageCall :=
  (postMainRun true p).calls

/-- Tests whether any stage flag of a GPS_Postprocess invocation is set. -/
def anyPostFlag (p : PostArgs) : Bool :=
  p.bkg || p.bkgGraX || p.sharpen || p.denoiseCC || p.sharpenCC ||
  p.denoiseGraX || p.sharpenGraX

/-! ## GPS_Process.py: top-level try block (lines 761-766) -/

/-- Embeds the `try`/`except` of GPS_Process `main_logic`: `siril.connect()`
and `requires 1.3.6` run first inside the `try`; when either raises, control
jumps to the `except` (which prints the error banner) and no stage check of
lines 775-885 is reached.  Returns the stage calls made and whether the
error banner was printed. -/
def processMainRun (hostOk : Bool) (a : ProcArgs) : List StageCall × Bool :=
  if hostOk then (mainCalls a, false) else ([], true)

/-! ## Concrete invocations used by the closed instances below -/

/-- A GPS_Process invocation requesting no stage at all. -/
def procArgsNone : ProcArgs :=
  ⟨[], false, [], [], none, [], [], [], false, false, false, [], [], [], []⟩

/-- A GPS_Process invocation requesting the siril sharpen and siril denoise
stages plus one CosmicClarity denoise tuple. -/
def procArgsSD : ProcArgs :=
  ⟨[], false, [], [], none, [[("full"), ("0.5")]], [], [], true, false, true, [], [], [], []⟩

/-- A GPS_Postprocess invocation requesting only DenoiseCC and SharpenCC. -/
def postArgsCC : PostArgs := ⟨false, false, false, true, true, false, false⟩

/-- A GPS_Postprocess invocation requesting the siril sharpen stage and
DenoiseCC, none of the CosmicClarity/GraXpert sharpen stages. -/
def postArgsSD : PostArgs := ⟨false, false, true, true, false, false, false⟩

/-- A CosmicClarity state with a stale file left in the tool's output
directory by a previous run, and one image to process. -/
def ccStStale : CCState := ⟨[], [("stale.fit")], [("m31.fit")], [], 0⟩

/-- A CosmicClarity state with clean tool directories and one image. -/
def ccStClean : CCState := ⟨[], [], [("m31.fit")], [], 0⟩

/-- An external tool behaviour writing one output file per launch. -/
def toolOutOne : Nat → List String := fun _ => [("m31d.fit")]

/-- A working directory holding a plain FILE named `processed_1` (not a
directory). -/
def entriesFileClash : List Entry := [⟨("processed_1"), false⟩]

/-- A working directory holding the directory `processed_1`, one original
image and one image produced during the run. -/
def entriesNormal : List Entry :=
  [⟨("processed_1"), true⟩, ⟨("m31.fit"), false⟩, ⟨("m31_b0.5.fit"), false⟩]

/-! # Helper lemmas -/

theorem noSharpen_append (l1 l2 : List StageCall) :
    noSharpen (l1 ++ l2) = (noSharpen l1 && noSharpen l2) := by
  induction l1 with
  | nil => simp [noSharpen]
  | cons c r ih => simp [noSharpen, ih, Bool.and_assoc]

theorem noDenoise_append (l1 l2 : List StageCall) :
    noDenoise (l1 ++ l2) = (noDenoise l1 && noDenoise l2) := by
  induction l1 with
  | nil => simp [noDenoise]
  | cons c r ih => simp [noDenoise, ih, Bool.and_assoc]

theorem sbD_of_noSharpen (l : List StageCall) (h : noSharpen l = true) :
    sharpenBeforeDenoise l = true := by
  induction l with
  | nil => rfl
  | cons c r ih =>
    simp only [noSharpen, Bool.and_eq_true, Bool.not_eq_true'] at h
    cases hD : isDenoiseCall c <;> simp [sharpenBeforeDenoise, hD, h.2, ih h.2]

theorem sbD_of_noDenoise (l : List StageCall) (h : noDenoise l = true) :
    sharpenBeforeDenoise l = true := by
  induction l with
  | nil => rfl
  | cons c r ih =>
    simp only [noDenoise, Bool.and_eq_true, Bool.not_eq_true'] at h
    simp [sharpenBeforeDenoise, h.1, ih h.2]

theorem sbD_append_front (l1 l2 : List StageCall) (h1 : noDenoise l1 = true)
    (h2 : sharpenBeforeDenoise l2 = true) :
    sharpenBeforeDenoise (l1 ++ l2) = true := by
  induction l1 with
  | nil => simpa using h2
  | cons c r ih =>
    simp only [noDenoise, Bool.and_eq_true, Bool.not_eq_true'] at h1
    simp [sharpenBeforeDenoise, h1.1, ih h1.2]

theorem sbD_append_back (l1 l2 : List StageCall) (h1 : sharpenBeforeDenoise l1 = true)
    (h2 : noSharpen l2 = true) :
    sharpenBeforeDenoise (l1 ++ l2) = true := by
  induction l1 with
  | nil => simpa using sbD_of_noSharpen l2 h2
  | cons c r ih =>
    cases hD : isDenoiseCall c
    case false =>
      have h1x : sharpenBeforeDenoise r = true := by
        simpa [sharpenBeforeDenoise, hD] using h1
      simpa [sharpenBeforeDenoise, hD] using ih h1x
    case true =>
      have h1x : noSharpen r = true := by
        simpa [sharpenBeforeDenoise, hD] using h1
      simp [sharpenBeforeDenoise, hD, noSharpen_append, h1x, h2]

theorem noDenoise_runTuples (ok : List String → Bool) (c : StageCall)
    (h : isDenoiseCall c = false) (l : List (List String)) :
    noDenoise (runTuples ok c l).1 = true := by
  induction l with
  | nil => rfl
  | cons n rest ih =>
    unfold runTuples
    by_cases hn : ok n = true <;> simp [hn, noDenoise, h, ih]

theorem noSharpen_runTuples (ok : List String → Bool) (c : StageCall)
    (h : isSharpenCall c = false) (l : List (List String)) :
    noSharpen (runTuples ok c l).1 = true := by
  induction l with
  | nil => rfl
  | cons n rest ih =>
    unfold runTuples
    by_cases hn : ok n = true <;> simp [hn, noSharpen, h, ih]

theorem noDenoise_boolSeg (flag : Bool) (c : StageCall) (h : isDenoiseCall c = false) :
    noDenoise (boolSeg flag c).1 = true := by
  cases flag <;> simp [boolSeg, noDenoise, h]

theorem noSharpen_boolSeg (flag : Bool) (c : StageCall) (h : isSharpenCall c = false) :
    noSharpen (boolSeg flag c).1 = true := by
  cases flag <;> simp [boolSeg, noSharpen, h]

theorem noDenoise_spccSeg (o : Option (List String)) :
    noDenoise (spccSeg o).1 = true := by
  cases o with
  | none => rfl
  | some l =>
    unfold spccSeg
    by_cases hl : (l.length = 2 || l.length = 4) = true <;> simp [hl, noDenoise, isDenoiseCall]

theorem noDenoise_andThen (s t : Seg) (h1 : noDenoise s.1 = true)
    (h2 : noDenoise t.1 = true) : noDenoise (andThen s t).1 = true := by
  unfold andThen
  by_cases hs : s.2 = true <;> simp [hs, noDenoise_append, h1, h2]

theorem noSharpen_andThen (s t : Seg) (h1 : noSharpen s.1 = true)
    (h2 : noSharpen t.1 = true) : noSharpen (andThen s t).1 = true := by
  unfold andThen
  by_cases hs : s.2 = true <;> simp [hs, noSharpen_append, h1, h2]

theorem noDenoise_frontSeg (a : ProcArgs) : noDenoise (frontSeg a).1 = true := by
  unfold frontSeg
  refine noDenoise_andThen _ _ (noDenoise_runTuples abeOk StageCall.abeC rfl _) ?_
  refine noDenoise_andThen _ _ (noDenoise_runTuples headOk StageCall.bkgC rfl _) ?_
  refine noDenoise_andThen _ _ (noDenoise_runTuples headOk StageCall.bkgGraXC rfl _) ?_
  refine noDenoise_andThen _ _ (noDenoise_spccSeg _) ?_
  refine noDenoise_andThen _ _ (noDenoise_boolSeg _ StageCall.sharpenC rfl) ?_
  refine noDenoise_andThen _ _ (noDenoise_runTuples sharpenCCOk StageCall.sharpenCCC rfl _) ?_
  exact noDenoise_andThen _ _ (noDenoise_runTuples sharpenGraXOk StageCall.sharpenGraXC rfl _)
    (noDenoise_runTuples sharpenSAOk StageCall.sharpenSAC rfl _)

theorem noSharpen_backSeg (a : ProcArgs) : noSharpen (backSeg a).1 = true := by
  unfold backSeg
  refine noSharpen_andThen _ _ (noSharpen_boolSeg _ StageCall.denoiseC rfl) ?_
  refine noSharpen_andThen _ _ (noSharpen_runTuples denoiseCCOk StageCall.denoiseCCC rfl _) ?_
  refine noSharpen_andThen _ _ (noSharpen_runTuples tripleOk StageCall.denoiseSAC rfl _) ?_
  refine noSharpen_andThen _ _ (noSharpen_runTuples headOk StageCall.denoiseGraXC rfl _) ?_
  refine noSharpen_andThen _ _ (noSharpen_boolSeg _ StageCall.autostretchC rfl) ?_
  exact noSharpen_andThen _ _ (noSharpen_runTuples tripleOk StageCall.statstretchC rfl _)
    (noSharpen_boolSeg _ StageCall.multiprocessC rfl)

theorem stageRun_final (f : String → String) (l : List String) : ∀ P : List String,
    (stageRun f l P).2.2 = P ++ (stageRun f l P).2.1 := by
  induction l with
  | nil => intro P; simp [stageRun]
  | cons img r ih =>
    intro P
    unfold stageRun
    by_cases h : (fitExt img && !P.contains img) = true
    · simp only [h, if_true]
      rw [ih (P ++ [img])]
      simp
    · simp only [h, if_false]
      exact ih P

theorem stageConsumed_skip (f : String → String) (l : List String) :
    ∀ (P : List String) (x : String), x ∈ P → x ∉ stageConsumed f l P := by
  induction l with
  | nil => intro P x _ hc; simp [stageConsumed, stageRun] at hc
  | cons img r ih =>
    intro P x hx
    unfold stageConsumed stageRun
    by_cases h : (fitExt img && !P.contains img) = true
    · simp only [h, if_true]
      intro hc
      rcases List.mem_cons.mp hc with heq | hrest
      · have himg : P.contains img = false := by
          rcases Bool.and_eq_true .. |>.mp h with ⟨_, h2⟩
          simpa using h2
        rw [heq] at hx
        have : P.contains img = true := by simpa using hx
        rw [himg] at this
        exact Bool.false_ne_true this
      · exact ih (P ++ [img]) x (List.mem_append.mpr (Or.inl hx)) hrest
    · simp only [h, if_false]
      exact ih P x hx

theorem ccStepState_ccInput (toolOut : Nat → List String) (newName : String → String)
    (st : CCState) (image : String) :
    (ccStepState toolOut newName st image).ccInput = [] := rfl

theorem ccStepState_ccOutput (toolOut : Nat → List String) (newName : String → String)
    (st : CCState) (image : String) :
    (ccStepState toolOut newName st image).ccOutput = [] := rfl

theorem ccStepEvents_launch (toolOut : Nat → List String) (newName : String → String)
    (st : CCState) (image : String) (iF oF : List String)
    (hm : CCEvent.launchE iF oF ∈ ccStepEvents toolOut newName st image) :
    iF = st.ccInput ++ [ccImg2 image] ∧ oF = st.ccOutput := by
  unfold ccStepEvents at hm
  by_cases hfz : strEndsWith image (".fz") = true
  · simp only [hfz, if_true, List.mem_append, List.mem_singleton, List.mem_map,
      List.not_mem_nil, false_or, or_false] at hm
    rcases hm with (((h | h) | h) | ⟨a, _, h⟩) | ⟨a, _, h⟩
    · exact CCEvent.noConfusion h
    · exact CCEvent.noConfusion h
    · injection h with u v; exact ⟨u, v⟩
    · exact CCEvent.noConfusion h
    · exact CCEvent.noConfusion h
  · simp only [hfz, Bool.false_eq_true, if_false, List.nil_append, List.mem_append,
      List.mem_singleton, List.mem_map, List.not_mem_nil, false_or, or_false] at hm
    rcases hm with ((h | h) | ⟨a, _, h⟩) | ⟨a, _, h⟩
    · exact CCEvent.noConfusion h
    · injection h with u v; exact ⟨u, v⟩
    · exact CCEvent.noConfusion h
    · exact CCEvent.noConfusion h

theorem ccLoop_empty_inv (toolOut : Nat → List String) (newName : String → String)
    (l : List String) : ∀ st : CCState, st.ccInput = [] → st.ccOutput = [] →
    (ccLoop toolOut newName l st).2.ccInput = [] ∧
    (ccLoop toolOut newName l st).2.ccOutput = [] := by
  induction l with
  | nil => intro st h1 h2; exact ⟨h1, h2⟩
  | cons image rest ih =>
    intro st h1 h2
    unfold ccLoop
    by_cases he : ccEligible st.processed image = true
    · rw [if_pos he]
      exact ih _ rfl rfl
    · rw [if_neg he]
      exact ih st h1 h2

theorem ccLoop_any_eligible (toolOut : Nat → List String) (newName : String → String)
    (l : List String) : ∀ st : CCState, st.ccInput = [] →
    l.any (ccEligible st.processed) = true →
    (ccLoop toolOut newName l st).2.ccInput = [] ∧
    (ccLoop toolOut newName l st).2.ccOutput = [] := by
  induction l with
  | nil => intro st _ h2; simp at h2
  | cons image rest ih =>
    intro st h1 hany
    unfold ccLoop
    by_cases he : ccEligible st.processed image = true
    · rw [if_pos he]
      exact ccLoop_empty_inv toolOut newName rest _ rfl rfl
    · rw [if_neg he]
      have hr : rest.any (ccEligible st.processed) = true := by
        have he2 : ccEligible st.processed image = false := by
          cases hb : ccEligible st.processed image
          · rfl
          · exact absurd hb he
        simp only [List.any_cons, he2, Bool.false_or] at hany
        exact hany
      exact ih st h1 hr

theorem ccLoop_launch_single (toolOut : Nat → List String) (newName : String → String)
    (l : List String) : ∀ st : CCState, st.ccInput = [] →
    ∀ iF oF : List String, CCEvent.launchE iF oF ∈ (ccLoop toolOut newName l st).1 →
    ∃ i, iF = [i] := by
  induction l with
  | nil => intro st _ iF oF hm; simp [ccLoop] at hm
  | cons image rest ih =>
    intro st h1 iF oF hm
    unfold ccLoop at hm
    by_cases he : ccEligible st.processed image = true
    · rw [if_pos he] at hm
      rcases List.mem_append.mp hm with hstep | hrest
      · have := ccStepEvents_launch toolOut newName st image iF oF hstep
        rw [h1] at this
        exact ⟨ccImg2 image, by simpa using this.1⟩
      · exact ih _ rfl iF oF hrest
    · rw [if_neg he] at hm
      exact ih st h1 iF oF hm

theorem chooseIndexFrom_min (dirs : List String) : ∀ (fuel i m : Nat), i ≤ m →
    m < chooseIndexFrom fuel i dirs → dirs.contains (processedName m) = true := by
  intro fuel
  induction fuel with
  | zero =>
    intro i m him hm
    unfold chooseIndexFrom at hm
    omega
  | succ f ih =>
    intro i m him hm
    unfold chooseIndexFrom at hm
    by_cases hc : dirs.contains (processedName i) = true
    · rw [if_pos hc] at hm
      rcases Nat.eq_or_lt_of_le him with heq | hlt
      · rw [← heq]; exact hc
      · exact ih (i + 1) m hlt hm
    · rw [if_neg hc] at hm
      omega

theorem splitFirstDash : ∀ (a1 a2 r1 r2 : List Char), ('-') ∉ a1 → ('-') ∉ a2 →
    a1 ++ '-' :: r1 = a2 ++ '-' :: r2 → a1 = a2 ∧ r1 = r2 := by
  intro a1
  induction a1 with
  | nil =>
    intro a2 r1 r2 _ h2 heq
    cases a2 with
    | nil =>
      simp only [List.nil_append] at heq
      refine ⟨rfl, ?_⟩
      injection heq
    | cons d u =>
      simp only [List.nil_append, List.cons_append] at heq
      injection heq with hc _
      exact absurd (show ('-') ∈ d :: u by rw [hc]; exact List.mem_cons_self d u) h2
  | cons c t ih =>
    intro a2 r1 r2 h1 h2 heq
    cases a2 with
    | nil =>
      simp only [List.nil_append, List.cons_append] at heq
      injection heq with hc _
      exact absurd (show ('-') ∈ c :: t by rw [← hc]; exact List.mem_cons_self c t) h1
    | cons d u =>
      simp only [List.cons_append] at heq
      injection heq with hcd hrest
      have h1t : ('-') ∉ t := fun hmem => h1 (List.mem_cons_of_mem c hmem)
      have h2u : ('-') ∉ u := fun hmem => h2 (List.mem_cons_of_mem d hmem)
      obtain ⟨ha, hr⟩ := ih u r1 r2 h1t h2u hrest
      exact ⟨by rw [hcd, ha], hr⟩

theorem splitLastDash (r1 r2 a1 a2 : List Char) (h1 : ('-') ∉ a1) (h2 : ('-') ∉ a2)
    (heq : r1 ++ '-' :: a1 = r2 ++ '-' :: a2) : r1 = r2 ∧ a1 = a2 := by
  have hrev : a1.reverse ++ '-' :: r1.reverse = a2.reverse ++ '-' :: r2.reverse := by
    have hx := congrArg List.reverse heq
    simpa [List.reverse_append] using hx
  have h1r : ('-') ∉ a1.reverse := by simpa using h1
  have h2r : ('-') ∉ a2.reverse := by simpa using h2
  obtain ⟨ha, hr⟩ := splitFirstDash a1.reverse a2.reverse r1.reverse r2.reverse h1r h2r hrev
  constructor
  · have hx := congrArg List.reverse hr
    simpa using hx
  · have hx := congrArg List.reverse ha
    simpa using hx

/-! # Claim theorems -/

/-- C1: the multi-session merge (GPS_Preprocess.py lines 383-397) is meant —
per its own comment "find highest pp_light in 1st working directory/process"
— to continue numbering above the highest existing index, but the scan keeps
only the LAST match in `os.listdir` order.  When the first session's process
directory lists `pp_light_00002.fit` before `pp_light_00001.fit`, the scan
yields 1, the merge starts at index 2, and the first rename targets
`pp_light_00002.fit`, a file that already exists there (silently overwritten
by `os.rename`). -/
theorem c1_scan_keeps_last_listed_and_collides :
    mergeStart [("pp_light_00002.fit"), ("pp_light_00001.fit")] = some 2 ∧
    mergeRenames [("pp_light_00001.fit")] 2 =
      [(("pp_light_00001.fit"), ("pp_light_00002.fit"))] ∧
    [("pp_light_00002.fit"), ("pp_light_00001.fit")].contains ("pp_light_00002.fit") = true := by
  refine ⟨by decide, by decide, by decide⟩

/-- C2 counterexample: `register` checks no completion marker.  On a
filesystem where its output sequence file `process/r_pp_light_.seq` already
exists, a repeat invocation still issues host commands, so "marker present
implies zero host calls ... for every stage issued by the driver (including
registration and stacking)" is false. -/
theorem c2_register_runs_despite_marker :
    [("process/r_pp_light_.seq")].contains ("process/r_pp_light_.seq") = true ∧
    (register [("process/r_pp_light_.seq")] false false ("process") ("pp_light")
      ("100%") ("100%") ("100%") ("100%") (" ")).isEmpty = false ∧
    (stack [("process/r_pp_light_.seq")] ("process") ("pp_light") ("M31") ("100%")
      ("100%") ("100%") ("100%") ("1") ("0")).isEmpty = false := by
  refine ⟨by decide, by decide, by decide⟩

/-- C2 as amended: marker presence is necessary and sufficient for a skip in
the stages that test for one (master bias/flat/dark, light calibration,
background extraction, platesolve), while `register` and `stack` never check
a marker and always issue host commands. -/
theorem c2_marker_skip_iff_for_checking_stages (fs : List FsPath)
    (bias_dir flat_dir dark_dir light_dir process_dir light_seq obj bkgF stars
      roundf wfwhm driz dscale feather : String)
    (ps : PsArg) (bkgFlag psFlag ncFlag : Bool) :
    (master_bias fs bias_dir process_dir = [] ↔ biasMarker fs = true) ∧
    (master_flat fs flat_dir process_dir = [] ↔ flatMarker fs = true) ∧
    (master_dark fs dark_dir process_dir = [] ↔ darkMarker fs = true) ∧
    (light fs light_dir process_dir = [] ↔ lightMarker fs = true) ∧
    (bkg_extract fs process_dir = [] ↔ bkgExtractMarker fs = true) ∧
    (platesolve fs bkgFlag ps process_dir light_seq = [] ↔
      platesolveMarker fs bkgFlag = true) ∧
    (register fs psFlag ncFlag process_dir light_seq bkgF stars roundf wfwhm
      driz).isEmpty = false ∧
    (stack fs process_dir light_seq obj bkgF stars roundf wfwhm dscale
      feather).isEmpty = false := by
  refine ⟨?_, ?_, ?_, ?_, ?_, ?_, ?_, ?_⟩
  · by_cases h : biasMarker fs = true <;> simp [master_bias, h]
  · by_cases h : flatMarker fs = true <;> simp [master_flat, h]
  · by_cases h : darkMarker fs = true <;> simp [master_dark, h]
  · by_cases h : lightMarker fs = true <;> simp [light, h]
  · by_cases h : bkgExtractMarker fs = true <;> simp [bkg_extract, h]
  · by_cases h : platesolveMarker fs bkgFlag = true <;> simp [platesolve, h]
  · by_cases h : psFlag = true <;> simp [register, h]
  · simp [stack]

/-- C3 counterexample: in GPS_Postprocess the module-level dispatch runs
DenoiseCC (line 214) before SharpenCC (line 218), so an invocation
requesting both issues the Denoise stage's external calls first, falsifying
"in every script revision ... all of the Sharpen stage's external calls are
issued before any of the Denoise stage's". -/
theorem c3_postprocess_denoise_before_sharpen :
    postCalls postArgsCC = [StageCall.denoiseCCC, StageCall.sharpenCCC] ∧
    sharpenBeforeDenoise (postCalls postArgsCC) = false := by
  refine ⟨by decide, by decide⟩

/-- C3 as amended: in GPS_Process every Sharpen-stage call precedes every
Denoise-stage call for every argument combination (the dispatch of
main_logic orders sharpen, sharpenCC, sharpenGraX, sharpenSA before denoise,
denoiseCC, denoiseSA, denoiseGraX); in GPS_Postprocess this only holds when
neither SharpenCC nor SharpenGraXpert is requested, since its dispatch runs
DenoiseCC before SharpenCC and DenoiseGraXpert before SharpenGraXpert. -/
theorem c3_sharpen_before_denoise_amended :
    (∀ a : ProcArgs, sharpenBeforeDenoise (mainCalls a) = true) ∧
    (∀ p : PostArgs, p.sharpenCC = false → p.sharpenGraX = false →
      sharpenBeforeDenoise (postCalls p) = true) := by
  constructor
  · intro a
    have hf := noDenoise_frontSeg a
    have hb := noSharpen_backSeg a
    unfold mainCalls andThen
    by_cases h2 : (frontSeg a).2 = true
    · rw [if_pos h2]
      exact sbD_append_front _ _ hf (sbD_of_noSharpen _ hb)
    · rw [if_neg h2]
      exact sbD_of_noDenoise _ hf
  · intro p h1 h2
    obtain ⟨b1, b2, b3, b4, b5, b6, b7⟩ := p
    have e5 : b5 = false := h1
    have e7 : b7 = false := h2
    subst e5; subst e7
    revert b1 b2 b3 b4 b6
    decide

/-- Closed instance of `c3_sharpen_before_denoise_amended` at a concrete
GPS_Process invocation (siril sharpen + siril denoise + one DenoiseCC tuple)
and a concrete GPS_Postprocess invocation (siril sharpen + DenoiseCC). -/
theorem c3_sharpen_before_denoise_amended_witness :
    sharpenBeforeDenoise (mainCalls procArgsSD) = true ∧
    sharpenBeforeDenoise (postCalls postArgsSD) = true :=
  ⟨c3_sharpen_before_denoise_amended.1 procArgsSD,
   c3_sharpen_before_denoise_amended.2 postArgsSD rfl rfl⟩

/-- C4: when SharpenCC is requested with mode "Stellar Only", the dispatch
(GPS_Process.py lines 821-824) takes the stellar amount from the first
caller-supplied value and forces the non-stellar amount and the non-stellar
strength to the string "0", whatever further values the caller supplied; the
command line handed to the executable (line 280) carries exactly those
values. -/
theorem c4_stellar_only_forces_nonstellar_zero (sa : String) (rest : List String)
    (executable_path : String) :
    sharpenCCAssign (("Stellar Only") :: sa :: rest) =
      some ⟨("Stellar Only"), sa, ("0"), ("0")⟩ ∧
    sharpenCCCmdString executable_path ⟨("Stellar Only"), sa, ("0"), ("0")⟩ =
      executable_path ++ (" --sharpening_mode \x27") ++ ("Stellar Only") ++
      ("\x27 --nonstellar_strength ") ++ ("0") ++ (" --stellar_amount ") ++ sa ++
      (" --nonstellar_amount  ") ++ ("0") ++ (" --auto_detect_psf") := by
  refine ⟨?_, rfl⟩
  simp [sharpenCCAssign]

/-- C5: when the per-tool CosmicClarity config file is absent, `denoise_CC`
(GPS_Process.py lines 118-120) and `sharpen_CC` (lines 257-259) print the
remediation message and exit with status 1 before any file is copied, moved
or deleted and before any subprocess is launched; the filesystem state is
untouched. -/
theorem c5_config_missing_exits_before_side_effects (st : CCState)
    (toolOut : Nat → List String) (mode strength : String) (v : SharpenCCVals) :
    ((denoise_CC_run false st toolOut mode strength).exitCode = some 1 ∧
     (denoise_CC_run false st toolOut mode strength).events =
       [CCEvent.printE ccNotConfiguredMsg] ∧
     (denoise_CC_run false st toolOut mode strength).events.all
       (fun e => !isFileOrLaunch e) = true ∧
     (denoise_CC_run false st toolOut mode strength).final = st) ∧
    ((sharpen_CC_run false st toolOut v).exitCode = some 1 ∧
     (sharpen_CC_run false st toolOut v).events = [CCEvent.printE ccNotConfiguredMsg] ∧
     (sharpen_CC_run false st toolOut v).events.all (fun e => !isFileOrLaunch e) = true ∧
     (sharpen_CC_run false st toolOut v).final = st) :=
  ⟨⟨rfl, rfl, rfl, rfl⟩, ⟨rfl, rfl, rfl, rfl⟩⟩

/-- C6 counterexample: `denoise_CC` drains only the tool's INPUT directory
before the loop (GPS_Process.py lines 122-124); the OUTPUT directory is
never pre-drained.  With a stale `stale.fit` left in the output directory by
an earlier run, the subprocess is launched while the output directory still
holds it, and the move loop afterwards renames the stale file as if it were
this run's output. -/
theorem c6_output_not_drained_before_launch :
    (denoise_CC_run true ccStStale toolOutOne ("full") ("0.5")).events.contains
      (CCEvent.launchE [("m31.fit")] [("stale.fit")]) = true ∧
    (denoise_CC_run true ccStStale toolOutOne ("full") ("0.5")).events.contains
      (CCEvent.moveE ("stale.fit") ("m31_dcfull0.5.fit")) = true := by
  refine ⟨by decide, by decide⟩

/-- C6 as amended: the input directory (only) is drained before the loop and
after each launch, so at every subprocess launch the input directory holds
exactly the one image just copied; and once at least one image is processed,
both the input and the output directory are empty when the stage returns
(every output file has been moved into the working directory). -/
theorem c6_cc_directories_amended (st : CCState) (toolOut : Nat → List String)
    (mode strength : String) (v : SharpenCCVals)
    (hany : st.work.any (ccEligible st.processed) = true) :
    ((denoise_CC_run true st toolOut mode strength).final.ccInput = [] ∧
     (denoise_CC_run true st toolOut mode strength).final.ccOutput = [] ∧
     ∀ iF oF : List String,
       CCEvent.launchE iF oF ∈ (denoise_CC_run true st toolOut mode strength).events →
       ∃ i, iF = [i]) ∧
    ((sharpen_CC_run true st toolOut v).final.ccInput = [] ∧
     (sharpen_CC_run true st toolOut v).final.ccOutput = [] ∧
     ∀ iF oF : List String,
       CCEvent.launchE iF oF ∈ (sharpen_CC_run true st toolOut v).events →
       ∃ i, iF = [i]) := by
  constructor
  · refine ⟨(ccLoop_any_eligible toolOut (fun img => dcNewImage img mode strength)
        st.work { st with ccInput := [] } rfl hany).1,
      (ccLoop_any_eligible toolOut (fun img => dcNewImage img mode strength)
        st.work { st with ccInput := [] } rfl hany).2, ?_⟩
    intro iF oF hm
    have hm2 : CCEvent.launchE iF oF ∈
        (st.ccInput.map CCEvent.removeE) ++
        (ccLoop toolOut (fun img => dcNewImage img mode strength) st.work
          { st with ccInput := [] }).1 := hm
    rcases List.mem_append.mp hm2 with hdr | hlp
    · rcases List.mem_map.mp hdr with ⟨z, _, hz⟩
      exact CCEvent.noConfusion hz
    · exact ccLoop_launch_single toolOut (fun img => dcNewImage img mode strength)
        st.work { st with ccInput := [] } rfl iF oF hlp
  · refine ⟨(ccLoop_any_eligible toolOut (fun img => scNewImage img v)
        st.work { st with ccInput := [] } rfl hany).1,
      (ccLoop_any_eligible toolOut (fun img => scNewImage img v)
        st.work { st with ccInput := [] } rfl hany).2, ?_⟩
    intro iF oF hm
    have hm2 : CCEvent.launchE iF oF ∈
        (st.ccInput.map CCEvent.removeE) ++
        (ccLoop toolOut (fun img => scNewImage img v) st.work
          { st with ccInput := [] }).1 := hm
    rcases List.mem_append.mp hm2 with hdr | hlp
    · rcases List.mem_map.mp hdr with ⟨z, _, hz⟩
      exact CCEvent.noConfusion hz
    · exact ccLoop_launch_single toolOut (fun img => scNewImage img v)
        st.work { st with ccInput := [] } rfl iF oF hlp

/-- Closed instance of `c6_cc_directories_amended` on a clean state with one
image: both tool directories end empty and the recorded launch saw exactly
the single copied image in the input directory. -/
theorem c6_cc_directories_amended_witness :
    (denoise_CC_run true ccStClean toolOutOne ("full") ("0.5")).final.ccInput = [] ∧
    (denoise_CC_run true ccStClean toolOutOne ("full") ("0.5")).final.ccOutput = [] ∧
    ∃ i, [("m31.fit")] = [i] :=
  ⟨(c6_cc_directories_amended ccStClean toolOutOne ("full") ("0.5")
      ⟨("Both"), ("0.5"), ("0.5"), ("5")⟩ (by decide)).1.1,
   (c6_cc_directories_amended ccStClean toolOutOne ("full") ("0.5")
      ⟨("Both"), ("0.5"), ("0.5"), ("5")⟩ (by decide)).1.2.1,
   (c6_cc_directories_amended ccStClean toolOutOne ("full") ("0.5")
      ⟨("Both"), ("0.5"), ("0.5"), ("5")⟩ (by decide)).1.2.2 [("m31.fit")] [] (by decide)⟩

/-- C7 counterexample: for the parameterized SharpenCC stage the derived
filename joins the parameter values with a bare dash (GPS_Process.py line
306), so two different caller-supplied parameter tuples (here differing in
stellar amount and non-stellar strength) can yield the same derived
filename for the same input. -/
theorem c7_two_param_sets_one_filename :
    sharpenCCAssign [("Both"), ("1"), ("2"), ("4-3")] =
      some ⟨("Both"), ("1"), ("2"), ("4-3")⟩ ∧
    sharpenCCAssign [("Both"), ("3-1"), ("2"), ("4")] =
      some ⟨("Both"), ("3-1"), ("2"), ("4")⟩ ∧
    ((⟨("Both"), ("1"), ("2"), ("4-3")⟩ : SharpenCCVals) ==
      ⟨("Both"), ("3-1"), ("2"), ("4")⟩) = false ∧
    scNewImage ("m31.fit") ⟨("Both"), ("1"), ("2"), ("4-3")⟩ =
      scNewImage ("m31.fit") ⟨("Both"), ("3-1"), ("2"), ("4")⟩ := by
  refine ⟨by decide, by decide, by decide, by decide⟩

/-- C7 as amended: the single-parameter background-extract name
`base_b{smooth}` is injective in the parameter unconditionally, and the
SharpenCC name `base_sc{mode}-{nss}-{sa}-{nsa}.fit` is injective in
(mode, amounts) provided the three amount values contain no dash — the
separator the filename scheme uses. -/
theorem c7_filename_injective_amended (image s1 s2 : String) (v1 v2 : SharpenCCVals)
    (hd1 : ('-') ∉ v1.non_stellar_strength.data) (hd2 : ('-') ∉ v1.stellar_amount.data)
    (hd3 : ('-') ∉ v1.non_stellar_amount.data) (hd4 : ('-') ∉ v2.non_stellar_strength.data)
    (hd5 : ('-') ∉ v2.stellar_amount.data) (hd6 : ('-') ∉ v2.non_stellar_amount.data) :
    (bkgNewImage image s1 = bkgNewImage image s2 → s1 = s2) ∧
    (scNewImage image v1 = scNewImage image v2 → v1 = v2) := by
  constructor
  · intro h
    have hd := congrArg String.data h
    simp only [bkgNewImage, String.data_append, List.append_assoc] at hd
    replace hd := List.append_cancel_left hd
    replace hd := List.append_cancel_left hd
    exact String.ext hd
  · intro h
    obtain ⟨m1, sa1, na1, ns1⟩ := v1
    obtain ⟨m2, sa2, na2, ns2⟩ := v2
    have hd := congrArg String.data h
    have hdash : (("-") : String).data = ['-'] := rfl
    simp only [scNewImage, String.data_append, List.append_assoc, hdash,
      List.singleton_append] at hd
    replace hd := List.append_cancel_left hd
    replace hd := List.append_cancel_left hd
    have hfit1 : ('-') ∉ na1.data ++ ((".fit") : String).data := by
      intro hmem
      rcases List.mem_append.mp hmem with hx | hx
      · exact hd3 hx
      · revert hx; decide
    have hfit2 : ('-') ∉ na2.data ++ ((".fit") : String).data := by
      intro hmem
      rcases List.mem_append.mp hmem with hx | hx
      · exact hd6 hx
      · revert hx; decide
    obtain ⟨hA, hB⟩ := splitLastDash
      (m1.data ++ '-' :: ns1.data ++ '-' :: sa1.data)
      (m2.data ++ '-' :: ns2.data ++ '-' :: sa2.data)
      (na1.data ++ ((".fit") : String).data)
      (na2.data ++ ((".fit") : String).data)
      hfit1 hfit2 (by simpa [List.append_assoc] using hd)
    obtain ⟨hA2, hB2⟩ := splitLastDash
      (m1.data ++ '-' :: ns1.data) (m2.data ++ '-' :: ns2.data)
      sa1.data sa2.data hd2 hd5 (by simpa [List.append_assoc] using hA)
    obtain ⟨hA3, hB3⟩ := splitLastDash m1.data m2.data ns1.data ns2.data hd1 hd4 hA2
    have em : m1 = m2 := String.ext hA3
    have ens : ns1 = ns2 := String.ext hB3
    have esa : sa1 = sa2 := String.ext hB2
    have ena : na1 = na2 := String.ext (List.append_cancel_right hB)
    rw [em, ens, esa, ena]

/-- Closed instance of `c7_filename_injective_amended` at dash-free
parameter values. -/
theorem c7_filename_injective_amended_witness :
    (("0.5") : String) = ("0.5") ∧
    (⟨("Both"), ("0.5"), ("0.4"), ("3")⟩ : SharpenCCVals) =
      ⟨("Both"), ("0.5"), ("0.4"), ("3")⟩ :=
  ⟨(c7_filename_injective_amended ("m31.fit") ("0.5") ("0.5")
      ⟨("Both"), ("0.5"), ("0.4"), ("3")⟩ ⟨("Both"), ("0.5"), ("0.4"), ("3")⟩
      (by decide) (by decide) (by decide) (by decide) (by decide) (by decide)).1 rfl,
   (c7_filename_injective_amended ("m31.fit") ("0.5") ("0.5")
      ⟨("Both"), ("0.5"), ("0.4"), ("3")⟩ ⟨("Both"), ("0.5"), ("0.4"), ("3")⟩
      (by decide) (by decide) (by decide) (by decide) (by decide) (by decide)).2 rfl⟩

/-- C8: when `siril.connect()` or the `requires 1.3.6` handshake fails, no
stage function body runs in either script.  In GPS_Process the whole
dispatch sits inside the failed `try` (lines 761-766), so no stage call is
reached and the error banner is printed.  In GPS_Postprocess the `except`
falls through to the dispatch, but `workdir` was never assigned (line 196
is inside the dead `try`), so the first requested stage's argument
evaluation raises `NameError`, aborting the process before any stage
function executes; with no stage requested, nothing runs either way. -/
theorem c8_connect_failure_runs_no_stage (a : ProcArgs) (p : PostArgs) :
    (processMainRun false a).1 = [] ∧ (processMainRun false a).2 = true ∧
    (postMainRun false p).calls = [] ∧ (postMainRun false p).errPrinted = true ∧
    (anyPostFlag p = true → (postMainRun false p).err = some PostErr.nameError) := by
  refine ⟨rfl, rfl, ?_, rfl, ?_⟩
  · obtain ⟨b1, b2, b3, b4, b5, b6, b7⟩ := p
    revert b1 b2 b3 b4 b5 b6 b7
    decide
  · obtain ⟨b1, b2, b3, b4, b5, b6, b7⟩ := p
    revert b1 b2 b3 b4 b5 b6 b7
    decide

/-- Closed instance of `c8_connect_failure_runs_no_stage` on concrete
invocations with stages requested. -/
theorem c8_connect_failure_runs_no_stage_witness :
    (processMainRun false procArgsSD).1 = [] ∧
    (postMainRun false postArgsSD).calls = [] ∧
    (postMainRun false postArgsSD).err = some PostErr.nameError :=
  ⟨(c8_connect_failure_runs_no_stage procArgsSD postArgsSD).1,
   (c8_connect_failure_runs_no_stage procArgsSD postArgsSD).2.2.1,
   (c8_connect_failure_runs_no_stage procArgsSD postArgsSD).2.2.2.2 (by decide)⟩

/-- C9 counterexample: after the background-extract stage runs on a
directory holding `m31.fit`, `processed_images` holds the CONSUMED input
`m31.fit`, not the produced `m31_b0.5.fit` (the stage appends the loop
variable, GPS_Process.py line 85), and a later denoise stage in the same
invocation does process the file the earlier stage produced. -/
theorem c9_processed_set_holds_inputs_not_outputs :
    stageFinalProcessed (fun i => bkgNewImage i ("0.5")) [("m31.fit")] [] =
      [("m31.fit")] ∧
    ([("m31.fit")].contains ("m31_b0.5.fit")) = false ∧
    stageConsumed denoiseNewImage [("m31.fit"), ("m31_b0.5.fit")]
      (stageFinalProcessed (fun i => bkgNewImage i ("0.5")) [("m31.fit")] []) =
      [("m31_b0.5.fit")] := by
  refine ⟨by decide, by decide, by decide⟩

/-- C9 as amended: `processed_images` accumulates exactly the inputs the
stage loops consumed; every stage skips the entries already in the set, so
no stage of the same invocation re-reads an input an earlier stage already
transformed — while earlier stages' outputs stay out of the set and remain
eligible for later stages. -/
theorem c9_processed_set_amended (f g : String → String) (l1 l2 P : List String)
    (x y : String) :
    stageFinalProcessed f l1 P = P ++ stageConsumed f l1 P ∧
    (y ∈ P → y ∉ stageConsumed f l1 P) ∧
    (x ∈ stageConsumed f l1 P →
      x ∉ stageConsumed g l2 (stageFinalProcessed f l1 P)) := by
  refine ⟨stageRun_final f l1 P, stageConsumed_skip f l1 P y, ?_⟩
  intro hx
  apply stageConsumed_skip g l2 _ x
  show x ∈ (stageRun f l1 P).2.2
  rw [stageRun_final f l1 P]
  exact List.mem_append.mpr (Or.inr hx)

/-- Closed instance of `c9_processed_set_amended`: the input consumed by the
first stage is not consumed again by the second. -/
theorem c9_processed_set_amended_witness :
    (("m31.fit") : String) ∈
      stageConsumed (fun i => bkgNewImage i ("0.5")) [("m31.fit")] [] ∧
    (("m31.fit") : String) ∉ stageConsumed denoiseNewImage
      [("m31.fit"), ("m31_b0.5.fit")]
      (stageFinalProcessed (fun i => bkgNewImage i ("0.5")) [("m31.fit")] []) :=
  ⟨by decide,
   (c9_processed_set_amended (fun i => bkgNewImage i ("0.5")) denoiseNewImage
      [("m31.fit")] [("m31.fit"), ("m31_b0.5.fit")] [] ("m31.fit") ("y.fit")).2.2
      (by decide)⟩

/-- C10 counterexample: `multiprocess` tests `os.path.isdir`, not existence.
With a plain FILE named `processed_1` in the working directory, the scan
settles on index 1 even though `processed_1` exists, and `os.makedirs`
raises `FileExistsError`: no directory is created and nothing is moved,
where the claim promised creation of `processed_N` for the smallest N whose
name does not already exist (here N = 2). -/
theorem c10_plain_file_defeats_index_scan :
    chooseIndex (workDirs entriesFileClash) = 1 ∧
    (workNames entriesFileClash).contains (processedName 1) = true ∧
    multiprocessRun entriesFileClash [] = Except.error ("FileExistsError") := by
  refine ⟨by decide, by decide, rfl⟩

/-- C10 as amended: provided the selected `processed_N` name is not taken by
an existing entry, `multiprocess` creates `processed_N` where N is the
smallest positive index that is not an existing DIRECTORY (every smaller
index is one), moves exactly the recognized image files not recorded in
`original_images`, and keeps every file recorded there in the working
directory. -/
theorem c10_multiprocess_amended (entries : List Entry) (original_images : List String)
    (hfree : (workNames entries).contains (mpDirName entries) = false) :
    multiprocessRun entries original_images =
      Except.ok (chooseIndex (workDirs entries), mpMoved entries original_images,
        mpRemaining entries original_images) ∧
    (workDirs entries).contains (mpDirName entries) = false ∧
    (∀ m, 1 ≤ m → m < chooseIndex (workDirs entries) →
      (workDirs entries).contains (processedName m) = true) ∧
    (∀ x, x ∈ mpMoved entries original_images ↔
      (x ∈ mpListing entries ∧ fitExt x = true ∧ original_images.contains x = false)) ∧
    (∀ x, x ∈ mpListing entries → original_images.contains x = true →
      x ∈ mpRemaining entries original_images) := by
  refine ⟨?_, ?_, ?_, ?_, ?_⟩
  · simp only [multiprocessRun, hfree, Bool.false_eq_true, if_false]
  · cases hb : (workDirs entries).contains (mpDirName entries)
    · rfl
    · exfalso
      have hmem : mpDirName entries ∈ workDirs entries := by simpa using hb
      have hmem2 : mpDirName entries ∈ workNames entries := by
        rcases List.mem_map.mp hmem with ⟨e, he, hname⟩
        exact List.mem_map.mpr ⟨e, List.mem_of_mem_filter he, hname⟩
      have : (workNames entries).contains (mpDirName entries) = true := by
        simpa using hmem2
      rw [this] at hfree
      exact Bool.noConfusion hfree
  · intro m h1 h2
    exact chooseIndexFrom_min (workDirs entries) _ 1 m h1 h2
  · intro x
    simp [mpMoved, List.mem_filter, Bool.and_eq_true, Bool.not_eq_true']
  · intro x hx hc
    simp only [mpRemaining, List.mem_filter, hx, true_and, Bool.not_eq_true',
      Bool.and_eq_false_iff, Bool.not_eq_true]
    exact Or.inr (by simpa using hc)

/-- Closed instance of `c10_multiprocess_amended`: `processed_1` is an
existing directory, so index 2 is chosen; the freshly produced
`m31_b0.5.fit` is moved while the original `m31.fit` stays. -/
theorem c10_multiprocess_amended_witness :
    multiprocessRun entriesNormal [("m31.fit")] =
      Except.ok (2, [("m31_b0.5.fit")],
        [("processed_1"), ("m31.fit"), ("processed_2")]) ∧
    (workDirs entriesNormal).contains (processedName 1) = true :=
  ⟨((c10_multiprocess_amended entriesNormal [("m31.fit")] (by decide)).1).trans rfl,
   (c10_multiprocess_amended entriesNormal [("m31.fit")] (by decide)).2.2.1 1
     (Nat.le_refl 1) (by decide)⟩
